import Mathlib

/-!
Shallow embedding of the Microstore user-service authentication core
(`src/user-service/src/index.js`) and the AWS Lambda request authorizer
(`exports.authorize`), together with theorems checking the specification's
claims about registration, login, token issuance/verification, refresh
rotation, logout and request authentication.

Modelling conventions:
* bcrypt digests are modelled as the hashed value paired with the salt used.
  bcryptjs reads only the first 72 bytes of its input.  For password digests
  `bcrypt.compare` is modelled as equality with the hashed password
  (passwords are shorter than 72 bytes; hash collisions are ignored).  For
  refresh-token digests the 72-byte limit is essential and modelled
  faithfully: a serialized token is base64url(header).base64url(payload).sig
  with a fixed 36-byte header for HS256, so byte 72 falls about 26 bytes
  into the payload JSON, which begins with the subject claim — `iat`, `exp`
  and the signature all lie beyond the window.  `bcrypt.compare` between the
  tokens this service hashes therefore keys on the subject claim alone
  (`bcompareTok`).
* JSON Web Tokens are modelled as a structure carrying the signed payload,
  the signing secret and the absolute expiry time.  `jwt.sign` is
  deterministic (as the real library is, at one-second granularity: the
  payload including `iat` and the secret determine the token string), and
  `jwt.verify` succeeds exactly when the secret matches and the clock is
  strictly before `exp`.
* Time is a natural number of seconds; each handler receives the current
  clock as an explicit argument.
* The persistent store is a list of user rows plus counters supplying fresh
  ids and fresh bcrypt salts.
* HTTP response bodies are a small JSON universe `JValue`; tokens and bcrypt
  digests are embeddable in it so that "secrets never appear in a response"
  is a meaningful statement.
* The `Authorization` header is modelled as the list of its space-separated
  words (mirroring `h.split(' ')` in the middleware); a word is either a
  plain string or a token.  An absent header stands for the empty string,
  whose split is the one-element list of the empty word.
-/

namespace Microstore

/-- A bcrypt digest of a value of type `α`: the model records the hashed
value and the salt.  `bcrypt.compare cand digest` is true exactly when
`cand` is the value that was hashed. -/
structure Digest (α : Type) where
  val : α
  salt : Nat
deriving DecidableEq, Repr

/-- `bcrypt.hash value salt` (work factor fixed system-wide). -/
def bhash (x : α) (salt : Nat) : Digest α := ⟨x, salt⟩

/-- `bcrypt.compare candidate digest` on passwords: equality with the
hashed password (inputs shorter than bcryptjs's 72-byte limit). -/
def bcompare [DecidableEq α] (x : α) (d : Digest α) : Bool := x = d.val

/-- The claim set of a JWT as used by the user service: subject id, and the
optional `username`, `role` and `type` claims, plus the issued-at second
that `jwt.sign` always adds. -/
structure Payload where
  sub : Nat
  username : Option String
  role : Option String
  type : Option String
  iat : Nat
deriving DecidableEq, Repr

/-- A signed token: payload, signing secret and absolute expiry second. -/
structure Jwt where
  payload : Payload
  secret : String
  exp : Nat
deriving DecidableEq, Repr

/-- `jwt.verify token secret` at clock `now`: succeeds iff the signature
(secret) matches and the expiry has not passed. -/
def jwtVerify (t : Jwt) (secret : String) (now : Nat) : Option Payload :=
  if t.secret = secret ∧ now < t.exp then some t.payload else none

/-- `bcrypt.compare candidate digest` on serialized tokens.  bcryptjs reads
only the first 72 bytes of its input: the fixed 36-byte JOSE header, the
dot, and roughly the first 26 bytes of the payload JSON, which begin with
the subject claim (a uuid `sub` fills the window on its own; `iat`, `exp`
and the signature lie past byte 72, and the header does not depend on the
signing secret).  Two tokens hashed by this service therefore compare equal
exactly when their subject claims agree. -/
def bcompareTok (t : Jwt) (d : Digest Jwt) : Bool :=
  t.payload.sub = d.val.payload.sub

/-- `ACCESS_TOKEN_SECRET` (default value from the source). -/
def accessSecret : String := "access_secret"

/-- `REFRESH_TOKEN_SECRET` (default value from the source). -/
def refreshSecret : String := "refresh_secret"

/-- `ACCESS_TOKEN_TTL` = 15 minutes, in seconds. -/
def accessTtl : Nat := 900

/-- `REFRESH_TOKEN_TTL` = 7 days, in seconds. -/
def refreshTtl : Nat := 604800

/-- `jwt.sign({sub, username, role}, ACCESS_TOKEN_SECRET, {expiresIn: ACCESS_TOKEN_TTL})`. -/
def issueAccess (id : Nat) (uname role : String) (now : Nat) : Jwt :=
  { payload := { sub := id, username := some uname, role := some role,
                 type := none, iat := now },
    secret := accessSecret, exp := now + accessTtl }

/-- `jwt.sign({sub, type:'refresh'}, REFRESH_TOKEN_SECRET, {expiresIn: REFRESH_TOKEN_TTL})`. -/
def issueRefresh (id : Nat) (now : Nat) : Jwt :=
  { payload := { sub := id, username := none, role := none,
                 type := some "refresh", iat := now },
    secret := refreshSecret, exp := now + refreshTtl }

/-- A row of the `users` table (`src/user-service/src/models/User.js`). -/
structure UserRec where
  id : Nat
  username : String
  passwordHash : Digest String
  role : String
  refreshTokenHash : Option (Digest Jwt)
  createdAt : Nat
deriving DecidableEq, Repr

/-- The persistent store: the `users` table plus counters supplying fresh
primary keys and fresh bcrypt salts. -/
structure St where
  users : List UserRec
  nextId : Nat
  nextSalt : Nat
deriving DecidableEq, Repr

/-- Atomic JSON values of response bodies.  Digests are embeddable so that
non-exposure of `passwordHash` / `refreshTokenHash` is expressible. -/
inductive JAtom where
  | jnull : JAtom
  | jbool : Bool → JAtom
  | jnat : Nat → JAtom
  | jstr : String → JAtom
  | jtok : Jwt → JAtom
  | jdigestS : Digest String → JAtom
  | jdigestJ : Digest Jwt → JAtom
deriving DecidableEq, Repr

/-- A JSON value of nesting depth at most one: an atom or a flat object. -/
inductive JVal1 where
  | atom : JAtom → JVal1
  | jobj : List (String × JAtom) → JVal1
deriving DecidableEq, Repr

/-- A JSON value of nesting depth at most two — enough for every response
body this service produces. -/
inductive JValue where
  | atom : JAtom → JValue
  | jobj : List (String × JVal1) → JValue
deriving DecidableEq, Repr

/-- An HTTP response: status code and JSON body. -/
structure Resp where
  status : Nat
  body : JValue
deriving DecidableEq, Repr

/-- `res.status(s).json({error: msg})`. -/
def errResp (s : Nat) (msg : String) : Resp :=
  { status := s, body := .jobj [("error", .atom (.jstr msg))] }

/-- JavaScript falsiness of the optional string fields destructured from a
request body: absent, or the empty string. -/
def falsyStr : Option String → Bool
  | none => true
  | some s => s = ""

/-- `userRepository.findOne({where:{username}})`. -/
def findByUsername (st : St) (uname : String) : Option UserRec :=
  st.users.find? (fun u => u.username = uname)

/-- `userRepository.findOne({where:{id}})`. -/
def findById (st : St) (id : Nat) : Option UserRec :=
  st.users.find? (fun u => u.id = id)

/-- `userRepository.update({id}, patch)`: applies `patch` to every row with
the given id. -/
def updateById (st : St) (id : Nat) (patch : UserRec → UserRec) : St :=
  { st with users := st.users.map (fun u => if u.id = id then patch u else u) }

/-- `POST /register` handler. -/
def register (st : St) (username password role : Option String) (now : Nat) :
    Resp × St :=
  if falsyStr username || falsyStr password then
    (errResp 400 "username and password required", st)
  else
    let uname := username.getD ""
    let pword := password.getD ""
    match findByUsername st uname with
    | some _ => (errResp 409 "username taken", st)
    | none =>
      let passwordHash := bhash pword st.nextSalt
      let normalizedRole := if role = some "admin" then "admin" else "user"
      let user : UserRec :=
        { id := st.nextId, username := uname, passwordHash := passwordHash,
          role := normalizedRole, refreshTokenHash := none, createdAt := now }
      let st' : St :=
        { users := st.users ++ [user], nextId := st.nextId + 1,
          nextSalt := st.nextSalt + 1 }
      ({ status := 201,
         body := .jobj [("id", .atom (.jnat user.id)),
                        ("username", .atom (.jstr user.username)),
                        ("role", .atom (.jstr user.role))] }, st')

/-- `POST /login` handler. -/
def login (st : St) (username password : String) (now : Nat) : Resp × St :=
  match findByUsername st username with
  | none => (errResp 401 "invalid credentials", st)
  | some user =>
    if bcompare password user.passwordHash then
      let accessToken := issueAccess user.id user.username user.role now
      let refreshTok := issueRefresh user.id now
      let refreshTokenHash := bhash refreshTok st.nextSalt
      let st' := updateById { st with nextSalt := st.nextSalt + 1 } user.id
        (fun u => { u with refreshTokenHash := some refreshTokenHash })
      ({ status := 200,
         body := .jobj [("accessToken", .atom (.jtok accessToken)),
                        ("refreshToken", .atom (.jtok refreshTok)),
                        ("user", .jobj [("id", .jnat user.id),
                                        ("username", .jstr user.username),
                                        ("role", .jstr user.role)])] }, st')
    else (errResp 401 "invalid credentials", st)

/-- A space-separated word of the `Authorization` header: either a plain
string or (the serialization of) a signed token. -/
inductive HWord where
  | str : String → HWord
  | tok : Jwt → HWord
deriving DecidableEq, Repr

/-- JavaScript falsiness of the extracted word (`!token`): absent is handled
by the caller; the empty string is falsy, a token string is not. -/
def falsyWord : HWord → Bool
  | .str s => s = ""
  | .tok _ => false

/-- `jwt.verify` applied to a header word: a plain string is not a validly
signed token, so verification throws (returns `none`). -/
def wordVerify (w : HWord) (secret : String) (now : Nat) : Option Payload :=
  match w with
  | .str _ => none
  | .tok t => jwtVerify t secret now

/-- Outcome of the `auth` middleware: a 401 response, or the verified
claims attached as `req.user`. -/
inductive AuthOut where
  | err : Resp → AuthOut
  | ok : Payload → AuthOut
deriving DecidableEq, Repr

/-- The `auth` middleware.  `h.split(' ')` of an absent header (`''`) is the
one-element list of the empty word; the token is the second word
(`const [, token] = h.split(' ')`). -/
def auth (h : Option (List HWord)) (now : Nat) : AuthOut :=
  match (h.getD [.str ""]).get? 1 with
  | none => .err (errResp 401 "missing token")
  | some w =>
    if falsyWord w then .err (errResp 401 "missing token")
    else
      match wordVerify w accessSecret now with
      | some p => .ok p
      | none => .err (errResp 401 "invalid token")

/-- `GET /me` handler (behind `auth`); the lookup selects only
`id, username, role, createdAt`, and `res.json` of a missing row is `null`. -/
def getMe (st : St) (h : Option (List HWord)) (now : Nat) : Resp × St :=
  match auth h now with
  | .err r => (r, st)
  | .ok p =>
    match findById st p.sub with
    | none => ({ status := 200, body := .atom .jnull }, st)
    | some u =>
      ({ status := 200,
         body := .jobj [("id", .atom (.jnat u.id)),
                        ("username", .atom (.jstr u.username)),
                        ("role", .atom (.jstr u.role)),
                        ("createdAt", .atom (.jnat u.createdAt))] }, st)

/-- `POST /refresh-token` handler. -/
def refresh (st : St) (rt : Option Jwt) (now : Nat) : Resp × St :=
  match rt with
  | none => (errResp 400 "refreshToken required", st)
  | some tok =>
    match jwtVerify tok refreshSecret now with
    | none => (errResp 401 "invalid refresh token", st)
    | some payload =>
      if payload.type ≠ some "refresh" then
        (errResp 401 "invalid refresh token", st)
      else
        match findById st payload.sub with
        | none => (errResp 401 "invalid refresh token", st)
        | some user =>
          match user.refreshTokenHash with
          | none => (errResp 401 "invalid refresh token", st)
          | some stored =>
            if bcompareTok tok stored then
              let newRefreshTok := issueRefresh user.id now
              let newHash := bhash newRefreshTok st.nextSalt
              let st' := updateById { st with nextSalt := st.nextSalt + 1 }
                user.id (fun u => { u with refreshTokenHash := some newHash })
              let accessToken := issueAccess user.id user.username user.role now
              ({ status := 200,
                 body := .jobj [("accessToken", .atom (.jtok accessToken)),
                                ("refreshToken", .atom (.jtok newRefreshTok))] },
               st')
            else (errResp 401 "invalid refresh token", st)

/-- `POST /logout` handler (behind `auth`): clears the refresh hash. -/
def logout (st : St) (h : Option (List HWord)) (now : Nat) : Resp × St :=
  match auth h now with
  | .err r => (r, st)
  | .ok p =>
    (({ status := 200, body := .jobj [("ok", .atom (.jbool true))] } : Resp),
     updateById st p.sub (fun u => { u with refreshTokenHash := none }))

/-- The Lambda authorizer's outcome: denied with a `reason` context, or
allowed with the identity context attached. -/
inductive AuthzResult where
  | denied : String → AuthzResult
  | allowed : Nat → String → String → AuthzResult
deriving DecidableEq, Repr

/-- `authHeader.toLowerCase()` restricted to what the scheme check needs:
ASCII lowercasing, character by character. -/
def lowerAscii (s : String) : String := ⟨s.data.map Char.toLower⟩

/-- Does the header string start (case-insensitively) with `bearer `?  On
the word list this means: the first word lowercases to `bearer` and a space
follows it, i.e. there is at least a second word. -/
def bearerPrefixed (words : List HWord) : Bool :=
  match words with
  | .str s :: rest => lowerAscii s = "bearer" && !rest.isEmpty
  | _ => false

/-- `authHeader.slice(7).trim()` on the word list: the words after the first,
with empty words stripped from both ends (the effect of `trim` on the
rejoined string). -/
def sliceTrim (words : List HWord) : List HWord :=
  (((words.drop 1).dropWhile (fun w => w = .str "")).reverse.dropWhile
    (fun w => w = .str "")).reverse

/-- The Lambda REQUEST authorizer `exports.authorize`: rejects without
attempting verification unless the header is present and carries the
`Bearer ` scheme; otherwise verifies the sliced-out token. -/
def authorize (h : Option (List HWord)) (now : Nat) : AuthzResult :=
  let words := h.getD [.str ""]
  if !bearerPrefixed words then
    .denied "missing_or_malformed_authorization_header"
  else
    match sliceTrim words with
    | [.tok t] =>
      match jwtVerify t accessSecret now with
      | some p => .allowed p.sub (p.username.getD "") (p.role.getD "user")
      | none => .denied "invalid_token"
    | _ => .denied "invalid_token"

/-! ### Derived definitions used by the claims -/

/-- The store after persisting a fresh refresh-token hash for user `uid`
(the common tail of successful `login` and successful `refresh`). -/
def rotateState (st : St) (uid now : Nat) : St :=
  updateById { st with nextSalt := st.nextSalt + 1 } uid
    (fun x => { x with refreshTokenHash := some (bhash (issueRefresh uid now) st.nextSalt) })

/-- Keys that must never appear in a response body (claim C6). -/
def keySafe (k : String) : Bool :=
  !(k = "passwordHash") && !(k = "refreshTokenHash")

/-- An atomic body value is safe when it is not a bcrypt digest. -/
def atomSafe : JAtom → Bool
  | .jdigestS _ => false
  | .jdigestJ _ => false
  | _ => true

/-- Depth-one safety: no digest values and no secret-named keys. -/
def val1Safe : JVal1 → Bool
  | .atom a => atomSafe a
  | .jobj fs => fs.all (fun kv => keySafe kv.1 && atomSafe kv.2)

/-- Body safety: no digest values and no secret-named keys anywhere. -/
def bodySafe : JValue → Bool
  | .atom a => atomSafe a
  | .jobj fs => fs.all (fun kv => keySafe kv.1 && val1Safe kv.2)

/-- The refresh failure causes enumerated by claim C4, following the
claim's words: signature invalid under the refresh secret, expiry passed,
type marker absent or different from "refresh", the subject's user record
having no stored refresh hash, or the presented token's hash not matching
the stored hash. -/
def refreshFailCauseSpec (st : St) (tok : Jwt) (now : Nat) : Bool :=
  !(tok.secret = refreshSecret) || (tok.exp ≤ now) ||
  !(tok.payload.type = some "refresh") ||
  (match findById st tok.payload.sub with
   | some u => u.refreshTokenHash.isNone
   | none => false) ||
  (match findById st tok.payload.sub with
   | some u =>
     match u.refreshTokenHash with
     | some d => !(bcompareTok tok d)
     | none => false
   | none => false)

/-- Claim C4's cause list amended with the one missing case: the subject id
resolving to no user record at all. -/
def refreshFailCauseAmended (st : St) (tok : Jwt) (now : Nat) : Bool :=
  refreshFailCauseSpec st tok now || (findById st tok.payload.sub).isNone

/-! ### Concrete fixtures -/

/-- A refresh token for user 0 issued at second 0. -/
def tokenV1 : Jwt := issueRefresh 0 0

/-- A stored user whose current refresh-token hash is the hash of `tokenV1`. -/
def alice : UserRec :=
  { id := 0, username := "alice", passwordHash := bhash "pw" 0, role := "user",
    refreshTokenHash := some (bhash tokenV1 1), createdAt := 0 }

/-- A store holding exactly `alice`. -/
def stAlice : St := { users := [alice], nextId := 1, nextSalt := 2 }

/-- An access token for `alice` issued at second 0. -/
def accessTok : Jwt := issueAccess 0 "alice" "user" 0

/-- A refresh token for user 0 issued at second 1 — what rotating `tokenV1`
at second 1 yields. -/
def tokenV2 : Jwt := issueRefresh 0 1

/-- The store after rotating `tokenV1` at second 1. -/
def stRot : St := (refresh stAlice (some tokenV1) 1).2

/-- An empty store. -/
def stEmpty : St := { users := [], nextId := 0, nextSalt := 0 }

/-- A refresh-signed, well-typed, unexpired token whose subject matches no
user record. -/
def ghostTok : Jwt := issueRefresh 42 0

/-! ### Helper lemmas about the store and the handlers -/

theorem findById_nextSalt (st : St) (n sub : Nat) :
    findById { st with nextSalt := n } sub = findById st sub := rfl

theorem findById_some_id (st : St) (sub : Nat) (u : UserRec)
    (h : findById st sub = some u) : u.id = sub := by
  have := List.find?_some h
  simpa using this

theorem findByUsername_some_username (st : St) (un : String) (u : UserRec)
    (h : findByUsername st un = some u) : u.username = un := by
  have := List.find?_some h
  simpa using this

theorem find?_id_map_patch (l : List UserRec) (id sub : Nat)
    (r : Option (Digest Jwt)) :
    (l.map (fun u => if u.id = id then { u with refreshTokenHash := r } else u)).find?
        (fun u => u.id = sub)
      = (l.find? (fun u => u.id = sub)).map
          (fun u => if u.id = id then { u with refreshTokenHash := r } else u) := by
  have hfid : ∀ u : UserRec,
      (if u.id = id then { u with refreshTokenHash := r } else u).id = u.id := by
    intro u; split <;> rfl
  induction l with
  | nil => rfl
  | cons a l ih =>
    simp only [List.map_cons, List.find?_cons, hfid]
    by_cases ha : a.id = sub
    · simp [ha]
    · simp [ha, ih]

theorem findById_updateById (st : St) (id sub : Nat)
    (r : Option (Digest Jwt)) :
    findById (updateById st id (fun u => { u with refreshTokenHash := r })) sub
      = (findById st sub).map
          (fun u => if u.id = id then { u with refreshTokenHash := r } else u) := by
  cases st
  exact find?_id_map_patch _ id sub r

theorem findById_rotateState (st : St) (uid now sub : Nat) :
    findById (rotateState st uid now) sub
      = (findById st sub).map
          (fun u => if u.id = uid then { u with refreshTokenHash := some (bhash (issueRefresh uid now) st.nextSalt) } else u) := by
  unfold rotateState
  rw [findById_updateById, findById_nextSalt]

theorem auth_err_inv (h : Option (List HWord)) (now : Nat) (r : Resp)
    (he : auth h now = .err r) :
    r = errResp 401 "missing token" ∨ r = errResp 401 "invalid token" := by
  unfold auth at he
  cases hw : (h.getD [HWord.str ""]).get? 1 with
  | none =>
    rw [hw] at he
    injection he with h1
    exact Or.inl h1.symm
  | some w =>
    rw [hw] at he
    cases hf : falsyWord w with
    | true =>
      simp only [hf, if_true] at he
      injection he with h1
      exact Or.inl h1.symm
    | false =>
      simp only [hf, Bool.false_eq_true, if_false] at he
      cases hv : wordVerify w accessSecret now with
      | some p =>
        rw [hv] at he
        exact absurd he (by simp)
      | none =>
        rw [hv] at he
        injection he with h1
        exact Or.inr h1.symm

theorem auth_err_status (h : Option (List HWord)) (now : Nat) (r : Resp)
    (he : auth h now = .err r) : r.status = 401 := by
  rcases auth_err_inv h now r he with h' | h' <;> simp [h', errResp]

theorem refresh_ok_eq (st : St) (tok : Jwt) (now : Nat) (u : UserRec)
    (stored : Digest Jwt)
    (hsec : tok.secret = refreshSecret) (hexp : now < tok.exp)
    (htype : tok.payload.type = some "refresh")
    (hfind : findById st tok.payload.sub = some u)
    (hhash : u.refreshTokenHash = some stored)
    (hval : tok.payload.sub = stored.val.payload.sub) :
    refresh st (some tok) now =
      ({ status := 200,
         body := .jobj
           [("accessToken", .atom (.jtok (issueAccess u.id u.username u.role now))),
            ("refreshToken", .atom (.jtok (issueRefresh u.id now)))] },
       rotateState st u.id now) := by
  have hcmp : bcompareTok tok stored = true := by
    unfold bcompareTok
    exact decide_eq_true hval
  simp [refresh, jwtVerify, hsec, hexp, htype, hfind, hhash, hcmp,
    rotateState, updateById]

theorem refresh_ok_iff (st : St) (tok : Jwt) (now : Nat) :
    (refresh st (some tok) now).1.status = 200 ↔
      (tok.secret = refreshSecret ∧ now < tok.exp ∧
       tok.payload.type = some "refresh" ∧
       ∃ u stored, findById st tok.payload.sub = some u ∧
         u.refreshTokenHash = some stored ∧
         tok.payload.sub = stored.val.payload.sub) := by
  constructor
  · intro hs
    simp only [refresh] at hs
    split at hs
    · simp [errResp] at hs
    · rename_i payload heq
      have hp : tok.secret = refreshSecret ∧ now < tok.exp ∧ payload = tok.payload := by
        unfold jwtVerify at heq
        split at heq
        · rename_i hcond
          injection heq with h1
          exact ⟨hcond.1, hcond.2, h1.symm⟩
        · simp at heq
      obtain ⟨hsec, hexp, hpay⟩ := hp
      subst hpay
      split at hs
      · simp [errResp] at hs
      · rename_i htype
        split at hs
        · simp [errResp] at hs
        · rename_i u hfind
          split at hs
          · simp [errResp] at hs
          · rename_i stored hhash
            split at hs
            · rename_i hcmp
              refine ⟨hsec, hexp, ?_, u, stored, hfind, hhash, ?_⟩
              · simpa using htype
              · unfold bcompareTok at hcmp
                exact of_decide_eq_true hcmp
            · simp [errResp] at hs
  · rintro ⟨hsec, hexp, htype, u, stored, hfind, hhash, hval⟩
    rw [refresh_ok_eq st tok now u stored hsec hexp htype hfind hhash hval]

theorem refresh_status_cases (st : St) (tok : Jwt) (now : Nat) :
    (refresh st (some tok) now).1.status = 200 ∨
    (refresh st (some tok) now).1 = errResp 401 "invalid refresh token" := by
  simp only [refresh]
  repeat' split
  all_goals simp [errResp]

theorem login_ok_eq (st : St) (un pw : String) (now : Nat) (u : UserRec)
    (hfind : findByUsername st un = some u)
    (hcmp : u.passwordHash.val = pw) :
    login st un pw now =
      ({ status := 200,
         body := .jobj
           [("accessToken", .atom (.jtok (issueAccess u.id u.username u.role now))),
            ("refreshToken", .atom (.jtok (issueRefresh u.id now))),
            ("user", .jobj [("id", .jnat u.id), ("username", .jstr u.username),
                            ("role", .jstr u.role)])] },
       rotateState st u.id now) := by
  simp [login, hfind, bcompare, hcmp, rotateState, updateById]

theorem login_ok_inv (st : St) (un pw : String) (now : Nat) (r : Resp)
    (st' : St) (h : login st un pw now = (r, st')) (hs : r.status = 200) :
    ∃ u, findByUsername st un = some u ∧ u.passwordHash.val = pw ∧
      st' = rotateState st u.id now := by
  unfold login at h
  split at h
  · cases h
    simp [errResp] at hs
  · rename_i u hfind
    split at h
    · rename_i hcmp
      cases h
      refine ⟨u, hfind, by simpa [bcompare, eq_comm] using hcmp, ?_⟩
      simp [rotateState, updateById]
    · cases h
      simp [errResp] at hs


/-! ### Claim theorems -/

/-- C3: the two login failure causes — username not found, and password
verification failing for an existing user — produce observably identical
outcomes: the same 401 "invalid credentials" response and an unchanged
store, so the two runs are indistinguishable and usernames cannot be
enumerated. -/
theorem login_failures_indistinguishable (st : St) (u1 p1 u2 p2 : String)
    (now1 now2 : Nat) (h1 : findByUsername st u1 = none) (u : UserRec)
    (h2 : findByUsername st u2 = some u)
    (h3 : bcompare p2 u.passwordHash = false) :
    login st u1 p1 now1 = login st u2 p2 now2 ∧
    login st u1 p1 now1 = (errResp 401 "invalid credentials", st) := by
  constructor <;> simp [login, h1, h2, h3]

/-- Witness for C3 at a concrete store: an unknown username and a wrong
password for `alice` yield the same outcome. -/
theorem login_failures_indistinguishable_witness :
    login stAlice "bob" "x" 3 = login stAlice "alice" "wrong" 7 :=
  (login_failures_indistinguishable stAlice "bob" "x" "alice" "wrong" 3 7
    (by decide) alice (by decide) (by decide)).1

/-- C5: round-trip — verifying an access token issued by `issueAccess` with
the access secret strictly before expiry returns exactly the issued claims
(subject, username, role); at or after expiry verification fails. -/
theorem access_roundtrip (id : Nat) (uname role : String) (tIss now : Nat) :
    (now < tIss + accessTtl →
      jwtVerify (issueAccess id uname role tIss) accessSecret now =
        some { sub := id, username := some uname, role := some role,
               type := none, iat := tIss }) ∧
    (tIss + accessTtl ≤ now →
      jwtVerify (issueAccess id uname role tIss) accessSecret now = none) := by
  constructor
  · intro h
    simp [issueAccess, jwtVerify, h]
  · intro h
    have h' : ¬ (now < tIss + accessTtl) := not_lt.mpr h
    simp [issueAccess, jwtVerify, h']

/-- Witness for C5: issue at second 0, verify at second 10 (inside the TTL)
and at second 900 (expired). -/
theorem access_roundtrip_witness :
    jwtVerify (issueAccess 7 "carol" "admin" 0) accessSecret 10 =
      some { sub := 7, username := some "carol", role := some "admin",
             type := none, iat := 0 } ∧
    jwtVerify (issueAccess 7 "carol" "admin" 0) accessSecret 900 = none :=
  ⟨(access_roundtrip 7 "carol" "admin" 0 10).1 (by decide),
   (access_roundtrip 7 "carol" "admin" 0 900).2 (by decide)⟩

/-- C7: role normalization at registration — with username and password
present, the stored and returned role is "admin" exactly when the role input
is the exact string "admin" and "user" for every other value (absent,
"superadmin", "Admin", ...), and no role value causes a validation error:
the status is never 400. -/
theorem register_role_normalization (st : St) (username password : String)
    (role : Option String) (now : Nat) (hu : username ≠ "") (hp : password ≠ "") :
    (register st (some username) (some password) role now).1.status ≠ 400 ∧
    (findByUsername st username = none →
      register st (some username) (some password) role now =
        ({ status := 201,
           body := .jobj [("id", .atom (.jnat st.nextId)),
                          ("username", .atom (.jstr username)),
                          ("role", .atom (.jstr (if role = some "admin" then "admin" else "user")))] },
         { users := st.users ++
             [{ id := st.nextId, username := username,
                passwordHash := bhash password st.nextSalt,
                role := if role = some "admin" then "admin" else "user",
                refreshTokenHash := none, createdAt := now }],
           nextId := st.nextId + 1, nextSalt := st.nextSalt + 1 })) := by
  constructor
  · unfold register
    split
    · rename_i hcond
      simp [falsyStr, hu, hp] at hcond
    · cases hfind : findByUsername st username <;> simp [hfind, errResp]
  · intro hfree
    simp [register, falsyStr, hu, hp, hfree]

/-- Witness for C7: registering "bob" with role "superadmin" succeeds with
status 201 (normalized, not rejected). -/
theorem register_role_normalization_witness :
    (register stAlice (some "bob") (some "pw2") (some "superadmin") 9).1.status = 201 := by
  have h := (register_role_normalization stAlice "bob" "pw2" (some "superadmin") 9
    (by decide) (by decide)).2 (by decide)
  rw [h]

/-- C8: duplicate registration — when a user with the requested username
already exists (and username and password are present), register fails with
the 409 conflict response and the store is returned unchanged: no record is
created or modified. -/
theorem register_duplicate_conflict (st : St) (username password : String)
    (role : Option String) (now : Nat) (hu : username ≠ "") (hp : password ≠ "")
    (u : UserRec) (hdup : findByUsername st username = some u) :
    register st (some username) (some password) role now =
      (errResp 409 "username taken", st) := by
  simp [register, falsyStr, hu, hp, hdup]

/-- Witness for C8: re-registering "alice" is rejected with 409 and the
store is unchanged. -/
theorem register_duplicate_conflict_witness :
    register stAlice (some "alice") (some "pw2") none 9 =
      (errResp 409 "username taken", stAlice) :=
  register_duplicate_conflict stAlice "alice" "pw2" none 9 (by decide) (by decide)
    alice (by decide)


/-- C6: for every operation of the public interface and every input, the
response body never contains the `passwordHash` or `refreshTokenHash` of
any user: no bcrypt digest value and no field with either name occurs in
any body that register, login, refresh, logout or getMe can produce. -/
theorem no_secret_fields_exposed (st : St) (un pw role : Option String)
    (lun lpw : String) (rt : Option Jwt) (h1 h2 : Option (List HWord))
    (now : Nat) :
    bodySafe (register st un pw role now).1.body = true ∧
    bodySafe (login st lun lpw now).1.body = true ∧
    bodySafe (refresh st rt now).1.body = true ∧
    bodySafe (logout st h1 now).1.body = true ∧
    bodySafe (getMe st h2 now).1.body = true := by
  refine ⟨?_, ?_, ?_, ?_, ?_⟩
  · unfold register
    split
    · simp [errResp, bodySafe, val1Safe, atomSafe, keySafe]
    · cases hfind : findByUsername st (un.getD "") <;>
        simp [hfind, errResp, bodySafe, val1Safe, atomSafe, keySafe]
  · unfold login
    repeat' split
    all_goals simp [errResp, bodySafe, val1Safe, atomSafe, keySafe]
  · unfold refresh
    repeat' split
    all_goals simp [errResp, bodySafe, val1Safe, atomSafe, keySafe]
  · cases ha : auth h1 now with
    | err r =>
      rcases auth_err_inv h1 now r ha with h' | h' <;>
        simp [logout, ha, h', errResp, bodySafe, val1Safe, atomSafe, keySafe]
    | ok p => simp [logout, ha, bodySafe, val1Safe, atomSafe, keySafe]
  · cases ha : auth h2 now with
    | err r =>
      rcases auth_err_inv h2 now r ha with h' | h' <;>
        simp [getMe, ha, h', errResp, bodySafe, val1Safe, atomSafe, keySafe]
    | ok p =>
      cases hf : findById st p.sub with
      | none => simp [getMe, ha, hf, bodySafe, atomSafe]
      | some u => simp [getMe, ha, hf, bodySafe, val1Safe, atomSafe, keySafe]

/-- C9 counterexample: the user-service middleware does not enforce the
Bearer scheme.  A header using the "Basic" scheme carrying a valid access
token is not rejected: the token is extracted, verified, and the request is
authenticated (the protected profile route answers 200), where the claim
requires a 401 failure with no verification attempted. -/
theorem auth_scheme_unchecked_cx :
    auth (some [HWord.str "Basic", HWord.tok accessTok]) 5 =
      .ok accessTok.payload ∧
    (getMe stAlice (some [HWord.str "Basic", HWord.tok accessTok]) 5).1.status
      = 200 := by
  constructor <;> decide

/-- C9 (amended): the user-service middleware extracts the second
space-separated word of the `Authorization` header without checking the
scheme word at all, fails 401 "missing token" exactly when that word is
absent or empty — so its decision is independent of the scheme word — and
otherwise passes the word to access-token verification; the Lambda
authorizer, by contrast, does reject any header that is absent or does not
carry the `Bearer ` scheme without attempting verification
(context reason `missing_or_malformed_authorization_header`). -/
theorem bearer_extraction_amended :
    (∀ h now, (h.getD [HWord.str ""]).get? 1 = none →
      auth h now = .err (errResp 401 "missing token")) ∧
    (∀ h now w, (h.getD [HWord.str ""]).get? 1 = some w → falsyWord w = true →
      auth h now = .err (errResp 401 "missing token")) ∧
    (∀ w1 w2 rest now,
      auth (some (w1 :: rest)) now = auth (some (w2 :: rest)) now) ∧
    (∀ h now, bearerPrefixed (h.getD [HWord.str ""]) = false →
      authorize h now = .denied "missing_or_malformed_authorization_header") := by
  refine ⟨?_, ?_, ?_, ?_⟩
  · intro h now hw
    unfold auth
    rw [hw]
  · intro h now w hw hf
    unfold auth
    rw [hw]
    simp [hf]
  · intro w1 w2 rest now
    rfl
  · intro h now hb
    unfold authorize
    simp [hb]

/-- Witness for the amended C9: an absent header is rejected by the
middleware, and a Basic-scheme header is rejected by the Lambda authorizer
without verification. -/
theorem bearer_extraction_amended_witness :
    auth none 0 = .err (errResp 401 "missing token") ∧
    authorize (some [HWord.str "Basic", HWord.tok accessTok]) 5 =
      .denied "missing_or_malformed_authorization_header" :=
  ⟨bearer_extraction_amended.1 none 0 (by decide),
   bearer_extraction_amended.2.2.2 (some [HWord.str "Basic", HWord.tok accessTok])
     5 (by decide)⟩


/-- C1: evaluation of the code at the claim's failing input.  Rotating
`tokenV1` (issued at second 0) at second 1 succeeds and persists the hash
of the distinct token `tokenV2`; yet Refresh(`tokenV1`) at second 2 still
answers 200 instead of the 401 the claim (and the code's own "rotate"
intent) requires: bcrypt.compare reads only the first 72 bytes of the
serialized token, which all same-subject refresh tokens share, so the
comparison against the stored hash cannot reject the rotated-away token. -/
theorem refresh_rotation_bug :
    tokenV2 ≠ tokenV1 ∧
    refresh stAlice (some tokenV1) 1 =
      ({ status := 200,
         body := .jobj
           [("accessToken", .atom (.jtok (issueAccess 0 "alice" "user" 1))),
            ("refreshToken", .atom (.jtok tokenV2))] }, stRot) ∧
    (refresh stRot (some tokenV1) 2).1.status = 200 := by
  refine ⟨by decide, by decide, by decide⟩

/-- C4 counterexample: a token signed with the refresh secret, unexpired
and carrying the "refresh" type marker, whose subject matches no user
record at all, makes Refresh fail with 401 — yet none of the five failure
causes listed by the claim holds (in particular "the subject's user record
has no stored refresh hash" does not hold, since there is no user record). -/
theorem refresh_fail_causes_cx :
    (refresh stEmpty (some ghostTok) 0).1.status = 401 ∧
    refreshFailCauseSpec stEmpty ghostTok 0 = false := by
  constructor <;> decide

/-- C4 (amended): Refresh with a presented token fails with 401 exactly
when one of the claim's causes holds or the subject id resolves to no user
record; when none of these hold, Refresh succeeds with 200. -/
theorem refresh_fail_iff (st : St) (tok : Jwt) (now : Nat) :
    ((refresh st (some tok) now).1.status = 401 ↔
      refreshFailCauseAmended st tok now = true) ∧
    (refreshFailCauseAmended st tok now = false →
      (refresh st (some tok) now).1.status = 200) := by
  have hOk : (refresh st (some tok) now).1.status = 200 ↔
      refreshFailCauseAmended st tok now = false := by
    constructor
    · intro hs
      obtain ⟨hsec, hexp, htype, u, stored, hfind, hhash, hval⟩ :=
        (refresh_ok_iff st tok now).1 hs
      have hnl : ¬ (tok.exp ≤ now) := not_le.mpr hexp
      have hcmp : bcompareTok tok stored = true := by
        unfold bcompareTok
        exact decide_eq_true hval
      simp [refreshFailCauseAmended, refreshFailCauseSpec, hsec, htype, hfind,
        hhash, hcmp, hnl]
    · intro hfa
      cases hfi : findById st tok.payload.sub with
      | none =>
        exfalso
        simp [refreshFailCauseAmended, hfi] at hfa
      | some u =>
        cases hh : u.refreshTokenHash with
        | none =>
          exfalso
          simp [refreshFailCauseAmended, refreshFailCauseSpec, hfi, hh] at hfa
        | some stored =>
          apply (refresh_ok_iff st tok now).2
          simp [refreshFailCauseAmended, refreshFailCauseSpec, hfi, hh] at hfa
          obtain ⟨⟨⟨hsec, hexp⟩, htype⟩, hcmp⟩ := hfa
          refine ⟨hsec, hexp, htype, u, stored, hfi, hh, ?_⟩
          unfold bcompareTok at hcmp
          exact of_decide_eq_true hcmp
  constructor
  · constructor
    · intro h401
      cases hAm : refreshFailCauseAmended st tok now with
      | false =>
        exact absurd ((hOk.2 hAm).symm.trans h401) (by decide)
      | true => rfl
    · intro hAm
      rcases refresh_status_cases st tok now with hs | hs
      · exact absurd (hAm.symm.trans (hOk.1 hs)) (by decide)
      · rw [hs]
        rfl
  · exact hOk.2

/-- Witness for the amended C4: for `alice`'s live refresh token none of
the causes holds and Refresh succeeds. -/
theorem refresh_fail_iff_witness :
    (refresh stAlice (some tokenV1) 0).1.status = 200 :=
  (refresh_fail_iff stAlice tokenV1 0).2 (by decide)


/-- C2 counterexample: in the store reached by rotating `tokenV1` at
second 1 (stored hash = hash of `tokenV2`), the two distinct tokens
`tokenV1` and `tokenV2` are both accepted by Refresh at second 2: more
than one refresh token is accepted for one user at a time, because
bcrypt.compare keys on the first 72 bytes of the serialized token, which
all same-subject refresh tokens share. -/
theorem single_active_session_cx :
    tokenV1 ≠ tokenV2 ∧
    (refresh stRot (some tokenV1) 2).1.status = 200 ∧
    (refresh stRot (some tokenV2) 2).1.status = 200 := by
  refine ⟨by decide, by decide, by decide⟩

/-- C2 (amended): each user record stores a single nullable
refreshTokenHash; a successful Login overwrites it with the hash of the
newly issued refresh token (and Refresh does the same on rotation, see the
third part), and Logout clears it, after which no refresh token at all is
accepted for that user.  But overwriting the hash does not invalidate
prior tokens: after a successful Login or Refresh, every validly signed,
refresh-typed, unexpired token for that subject is accepted — the stored
bcrypt hash only pins down the first 72 bytes of the token, which all
same-subject refresh tokens share — so the single-active-session property
holds only through Logout, not through rotation or re-login. -/
theorem single_session_amended (st : St) :
    (∀ h now p, auth h now = .ok p →
      ∀ t now', t.payload.sub = p.sub →
        (refresh (logout st h now).2 (some t) now').1.status = 401) ∧
    (∀ un pw now r st', login st un pw now = (r, st') → r.status = 200 →
      ∀ u, findByUsername st un = some u →
        st' = rotateState st u.id now ∧
        (∀ t now', t.secret = refreshSecret → t.payload.type = some "refresh" →
          now' < t.exp → t.payload.sub = u.id →
          (refresh st' (some t) now').1.status = 200)) ∧
    (∀ t0 now r st', refresh st (some t0) now = (r, st') → r.status = 200 →
      ∀ t now', t.secret = refreshSecret → t.payload.type = some "refresh" →
        now' < t.exp → t.payload.sub = t0.payload.sub →
        (refresh st' (some t) now').1.status = 200) := by
  refine ⟨?_, ?_, ?_⟩
  · intro h now p hok t now' hsub
    have hlg : (logout st h now).2 =
        updateById st p.sub (fun x => { x with refreshTokenHash := none }) := by
      simp [logout, hok]
    rw [hlg]
    rcases refresh_status_cases
      (updateById st p.sub (fun x => { x with refreshTokenHash := none }))
      t now' with hs | hs
    · exfalso
      obtain ⟨-, -, -, ut, sct, hft, hht, -⟩ :=
        (refresh_ok_iff _ t now').1 hs
      rw [findById_updateById, hsub] at hft
      cases hbase : findById st p.sub with
      | none =>
        rw [hbase] at hft
        simp at hft
      | some ub =>
        rw [hbase, Option.map_some'] at hft
        injection hft with hft'
        have hubid : ub.id = p.sub := findById_some_id st p.sub ub hbase
        rw [if_pos hubid] at hft'
        subst hft'
        rw [show ({ ub with refreshTokenHash := none } : UserRec).refreshTokenHash = (none : Option (Digest Jwt)) from rfl] at hht
        cases hht
    · rw [hs]
      rfl
  · intro un pw now r st' hlog hst u hfind
    obtain ⟨u', hfind', hpw, hst'⟩ := login_ok_inv st un pw now r st' hlog hst
    have huu : u' = u := by
      have h := hfind'.symm.trans hfind
      injection h
    subst huu
    subst hst'
    refine ⟨rfl, ?_⟩
    intro t now' hsec htype hexp hsub
    have hmem : u' ∈ st.users := List.mem_of_find?_eq_some hfind'
    have hfsome : (findById st u'.id).isSome := by
      unfold findById
      rw [List.find?_isSome]
      exact ⟨u', hmem, by simp⟩
    obtain ⟨ub, hub⟩ := Option.isSome_iff_exists.mp hfsome
    have hubid : ub.id = u'.id := findById_some_id st u'.id ub hub
    apply (refresh_ok_iff (rotateState st u'.id now) t now').2
    refine ⟨hsec, hexp, htype,
      { ub with refreshTokenHash := some (bhash (issueRefresh u'.id now) st.nextSalt) },
      bhash (issueRefresh u'.id now) st.nextSalt, ?_, rfl, ?_⟩
    · rw [findById_rotateState, hsub, hub, Option.map_some', if_pos hubid]
    · exact hsub
  · intro t0 now r st' href hst t now' hsec htype hexp hsub
    have hs200 : (refresh st (some t0) now).1.status = 200 := by
      rw [href]
      exact hst
    obtain ⟨hsec0, hexp0, htype0, u, stored, hfind, hhash, hval⟩ :=
      (refresh_ok_iff st t0 now).1 hs200
    have heq := refresh_ok_eq st t0 now u stored hsec0 hexp0 htype0 hfind hhash hval
    rw [heq] at href
    injection href with h1 h2
    subst h2
    have hid : u.id = t0.payload.sub := findById_some_id st t0.payload.sub u hfind
    have haux : findById st u.id = some u := by
      rw [hid]
      exact hfind
    apply (refresh_ok_iff (rotateState st u.id now) t now').2
    refine ⟨hsec, hexp, htype,
      { u with refreshTokenHash := some (bhash (issueRefresh u.id now) st.nextSalt) },
      bhash (issueRefresh u.id now) st.nextSalt, ?_, rfl, ?_⟩
    · rw [findById_rotateState, hsub, ← hid, haux, Option.map_some']
      simp
    · exact hsub.trans hid.symm

/-- Witness for the amended C2: after `alice` logs out her refresh token is
rejected; but after she logs in again at second 3, her old token `tokenV1`
is still accepted at second 4. -/
theorem single_session_amended_witness :
    (refresh (logout stAlice (some [HWord.str "Bearer", HWord.tok accessTok]) 5).2
      (some tokenV1) 6).1.status = 401 ∧
    (refresh (login stAlice "alice" "pw" 3).2 (some tokenV1) 4).1.status = 200 :=
  ⟨(single_session_amended stAlice).1
      (some [HWord.str "Bearer", HWord.tok accessTok]) 5 accessTok.payload
      (by decide) tokenV1 6 (by decide),
   (((single_session_amended stAlice).2.1 "alice" "pw" 3
      (login stAlice "alice" "pw" 3).1 (login stAlice "alice" "pw" 3).2
      rfl (by decide) alice (by decide)).2 tokenV1 4
      (by decide) (by decide) (by decide) (by decide))⟩

/-- C10: logout never invalidates outstanding access tokens.  (i) The
accept/reject decision of the request authenticator on the protected
profile route depends only on the header and the clock, never on the store
(hence never on any stored refreshTokenHash): the status of GetProfile is
the same in any two stores.  (ii) Concretely, a not-yet-expired access
token issued for an existing user is still accepted on the profile route
after that user's Logout, with the very same response. -/
theorem access_decision_store_independent :
    (∀ st1 st2 h now,
      (getMe st1 h now).1.status = (getMe st2 h now).1.status) ∧
    (∀ st uid u, findById st uid = some u → ∀ tIss now, now < tIss + accessTtl →
      (logout st (some [HWord.str "Bearer", HWord.tok (issueAccess uid u.username u.role tIss)]) now).1.status = 200 ∧
      (getMe (logout st (some [HWord.str "Bearer", HWord.tok (issueAccess uid u.username u.role tIss)]) now).2
          (some [HWord.str "Bearer", HWord.tok (issueAccess uid u.username u.role tIss)]) now).1
        = (getMe st (some [HWord.str "Bearer", HWord.tok (issueAccess uid u.username u.role tIss)]) now).1 ∧
      (getMe st (some [HWord.str "Bearer", HWord.tok (issueAccess uid u.username u.role tIss)]) now).1.status = 200) := by
  constructor
  · intro st1 st2 h now
    cases ha : auth h now with
    | err r => simp [getMe, ha]
    | ok p =>
      cases h1 : findById st1 p.sub <;> cases h2 : findById st2 p.sub <;>
        simp [getMe, ha, h1, h2]
  · intro st uid u hfind tIss now hlt
    have hauth : auth (some [HWord.str "Bearer",
        HWord.tok (issueAccess uid u.username u.role tIss)]) now =
        .ok (issueAccess uid u.username u.role tIss).payload := by
      simp [auth, wordVerify, jwtVerify, falsyWord, issueAccess, hlt]
    have hps : (issueAccess uid u.username u.role tIss).payload.sub = uid := rfl
    have hubid : u.id = uid := findById_some_id st uid u hfind
    have hfu : findById (updateById st uid
        (fun x => { x with refreshTokenHash := none })) uid =
        some { u with refreshTokenHash := none } := by
      rw [findById_updateById, hfind, Option.map_some', if_pos hubid]
    refine ⟨by simp [logout, hauth], ?_, ?_⟩
    · have hlg : (logout st (some [HWord.str "Bearer",
          HWord.tok (issueAccess uid u.username u.role tIss)]) now).2 =
          updateById st uid (fun x => { x with refreshTokenHash := none }) := by
        simp [logout, hauth, hps]
      rw [hlg]
      simp [getMe, hauth, hps, hfu, hfind]
    · simp [getMe, hauth, hps, hfind]

/-- Witness for C10: `alice`'s unexpired access token still yields the same
200 profile response after her logout. -/
theorem access_decision_store_independent_witness :
    (getMe (logout stAlice (some [HWord.str "Bearer", HWord.tok accessTok]) 5).2
        (some [HWord.str "Bearer", HWord.tok accessTok]) 5).1
      = (getMe stAlice (some [HWord.str "Bearer", HWord.tok accessTok]) 5).1 ∧
    (getMe stAlice (some [HWord.str "Bearer", HWord.tok accessTok]) 5).1.status
      = 200 := by
  have h := (access_decision_store_independent).2 stAlice 0 alice (by decide)
    0 5 (by decide)
  exact ⟨h.2.1, h.2.2⟩

end Microstore
